import Mathlib

set_option maxRecDepth 20000

/-!
Shallow embedding of the token-handling core of `bluestealth/aws-iam-authenticator`
(package `token`: the token generator and verifier, plus the file-backed credential
cache whose implementation is exercised by the tests shipped in the repository).

Go strings are byte sequences; we model them as `List Nat` of byte values
(`gostr` converts an ASCII Lean string literal).  Go's `time.Time` instants are
modelled as `Int` nanoseconds since the Unix epoch.  External collaborators
(the AWS SDK presigner and endpoint resolver, the HTTP transport, the JSON and
YAML codecs) enter the model as explicit oracle arguments, exactly the data the
code reads back from them.
-/

namespace AwsIam

deriving instance DecidableEq for Except

/-- Go byte strings, as lists of byte values. -/
abbrev Str := List Nat

/-- Converts an ASCII Lean string literal into the byte string it denotes. -/
def gostr (s : String) : Str := s.data.map Char.toNat

/-- `strings.ToLower` restricted to ASCII, which is all the verifier feeds it. -/
def lowerByte (c : Nat) : Nat := if 65 ≤ c ∧ c ≤ 90 then c + 32 else c

/-- ASCII `strings.ToLower` on a whole byte string. -/
def toLowerStr (s : Str) : Str := s.map lowerByte

/-- `strings.Split` with a single-byte separator: `splitOnChar c [] = [[]]`,
matching Go's `strings.Split("", sep) = [""]`. -/
def splitOnChar (c : Nat) : Str → List Str
  | [] => [[]]
  | b :: rest =>
    let r := splitOnChar c rest
    if b = c then [] :: r
    else
      match r with
      | s :: tail => (b :: s) :: tail
      | [] => [[b]]

/-- `strings.Cut` with a single-byte separator: the text before the first
occurrence and the text after it (empty when the separator is absent). -/
def cutAt (c : Nat) : Str → Str × Str
  | [] => ([], [])
  | b :: rest =>
    if b = c then ([], rest)
    else
      let p := cutAt c rest
      (b :: p.1, p.2)

/-- Longest leading segment whose bytes fail `p`, and the rest. -/
def spanUntil (p : Nat → Bool) : Str → Str × Str
  | [] => ([], [])
  | c :: rest =>
    if p c then ([], c :: rest)
    else
      let q := spanUntil p rest
      (c :: q.1, q.2)

/-- Decimal rendering of a natural number (Go's `%d` for non-negative values). -/
def natToStr (n : Nat) : Str := (Nat.toDigits 10 n).map Char.toNat

/-- Decimal rendering of an integer (Go's `%d`). -/
def intToStr (n : Int) : Str :=
  if n < 0 then 45 :: natToStr n.natAbs else natToStr n.natAbs

/-- Zero-padded two-digit decimal field. -/
def pad2 (n : Nat) : Str := if n < 10 then 48 :: natToStr n else natToStr n

/-- Zero-padded four-digit decimal field. -/
def pad4 (n : Nat) : Str :=
  if n < 10 then 48 :: 48 :: 48 :: natToStr n
  else if n < 100 then 48 :: 48 :: natToStr n
  else if n < 1000 then 48 :: natToStr n
  else natToStr n

/-- Go's `%q` on the strings the verifier quotes: none needs escaping, so it
wraps the text in double quotes. -/
def quoteStr (s : Str) : Str := 34 :: s ++ [34]

/-! ### URL-safe base64 without padding (`base64.RawURLEncoding`) -/

/-- The value of a byte in the URL-safe base64 alphabet (`A-Z a-z 0-9 - _`),
`none` for a byte outside the alphabet. -/
def b64Val (c : Nat) : Option Nat :=
  if 65 ≤ c ∧ c ≤ 90 then some (c - 65)
  else if 97 ≤ c ∧ c ≤ 122 then some (c - 97 + 26)
  else if 48 ≤ c ∧ c ≤ 57 then some (c - 48 + 52)
  else if c = 45 then some 62
  else if c = 95 then some 63
  else none

/-- The alphabet byte for a 6-bit value. -/
def encChar (v : Nat) : Nat :=
  if v < 26 then 65 + v
  else if v < 52 then 97 + (v - 26)
  else if v < 62 then 48 + (v - 52)
  else if v = 62 then 45
  else 95

/-- `base64.RawURLEncoding.EncodeToString`: three input bytes to four alphabet
bytes, with the short final chunk encoded without padding. -/
def base64RawUrlEncode : List Nat → List Nat
  | [] => []
  | [x] => [encChar (x / 4), encChar (x % 4 * 16)]
  | [x, y] => [encChar (x / 4), encChar (x % 4 * 16 + y / 16), encChar (y % 16 * 4)]
  | x :: y :: z :: rest =>
    encChar (x / 4) :: encChar (x % 4 * 16 + y / 16) ::
      encChar (y % 16 * 4 + z / 64) :: encChar (z % 64) :: base64RawUrlEncode rest

/-- `base64.RawURLEncoding.DecodeString`: `none` on a byte outside the alphabet
or on a length `≡ 1 (mod 4)`; like Go's default (non-strict) decoder it ignores
the unused trailing bits of a short final chunk. -/
def base64RawUrlDecode : List Nat → Option (List Nat)
  | [] => some []
  | [_] => none
  | [a, b] =>
    match b64Val a, b64Val b with
    | some va, some vb => some [va * 4 + vb / 16]
    | _, _ => none
  | [a, b, c] =>
    match b64Val a, b64Val b, b64Val c with
    | some va, some vb, some vc => some [va * 4 + vb / 16, vb % 16 * 16 + vc / 4]
    | _, _, _ => none
  | a :: b :: c :: d :: rest =>
    match b64Val a, b64Val b, b64Val c, b64Val d, base64RawUrlDecode rest with
    | some va, some vb, some vc, some vd, some bytes =>
      some ((va * 4 + vb / 16) :: (vb % 16 * 16 + vc / 4) :: (vc % 4 * 64 + vd) :: bytes)
    | _, _, _, _, _ => none

/-! ### `net/url` (the fragment of `url.Parse`, `url.ParseQuery` the verifier uses)

`net/url` is Go standard library, an external collaborator of this repository.
The model below is faithful on the URLs the verifier can meet after base64
decoding: absolute `scheme://host[/path][?query][#fragment]` URLs and relative
references, without userinfo sections and without percent-escapes inside the
path (escapes in the query are handled by `queryUnescape`).  Like Go, parsing
rejects ASCII control characters and lowercases the scheme; the `Host` field
keeps any port, and the fragment is split off and discarded here because the
verifier never reads it. -/

/-- The fields of Go's `url.URL` that `Verify` reads. -/
structure GoURL where
  scheme : Str
  host : Str
  path : Str
  rawQuery : Str
deriving DecidableEq

def isAlphaByte (c : Nat) : Bool := (65 ≤ c ∧ c ≤ 90) ∨ (97 ≤ c ∧ c ≤ 122)

def isDigitByte (c : Nat) : Bool := 48 ≤ c ∧ c ≤ 57

/-- A valid URL scheme: a letter followed by letters, digits, `+`, `-`, `.`. -/
def validScheme : Str → Bool
  | [] => false
  | c :: rest => isAlphaByte c && rest.all fun b => isAlphaByte b || isDigitByte b || b = 43 || b = 45 || b = 46

/-- Splits `tail` (what follows the authority: empty, or starting with `/`,
`?` or `#`) into path and raw query, dropping any fragment. -/
def parsePathQuery (scheme host : Str) (tail : Str) : GoURL :=
  let noFrag := (cutAt 35 tail).1
  let pq := cutAt 63 noFrag
  { scheme := scheme, host := host, path := pq.1, rawQuery := pq.2 }

/-- A reference without a scheme: everything up to `?` is the path. -/
def parseRel (s : Str) : GoURL := parsePathQuery [] [] s

/-- `url.Parse` on the URL shapes described above. -/
def parseURL (s : Str) : Option GoURL :=
  if s.any (fun c => decide (c < 32 ∨ c = 127)) then none
  else if 58 ∈ s then
    let p := cutAt 58 s
    if validScheme p.1 then
      if List.isPrefixOf (gostr "//") p.2 then
        let afterSlashes := p.2.drop 2
        let at2 := spanUntil (fun c => decide (c = 47 ∨ c = 63 ∨ c = 35)) afterSlashes
        some (parsePathQuery (toLowerStr p.1) at2.1 at2.2)
      else
        -- opaque form `scheme:rest`: `Path` is empty, the query still splits at `?`
        some { scheme := toLowerStr p.1, host := [], path := [],
               rawQuery := (cutAt 63 ((cutAt 35 p.2).1)).2 }
    else some (parseRel s)
  else some (parseRel s)

/-- Value of a hex digit byte. -/
def hexVal (c : Nat) : Option Nat :=
  if 48 ≤ c ∧ c ≤ 57 then some (c - 48)
  else if 65 ≤ c ∧ c ≤ 70 then some (c - 65 + 10)
  else if 97 ≤ c ∧ c ≤ 102 then some (c - 97 + 10)
  else none

/-- `url.QueryUnescape`: `%XX` decodes, `+` becomes a space, a malformed
escape fails. -/
def queryUnescape : Str → Option Str
  | [] => some []
  | 37 :: a :: b :: rest =>
    match hexVal a, hexVal b with
    | some x, some y => (queryUnescape rest).map ((x * 16 + y) :: ·)
    | _, _ => none
  | 37 :: _ => none
  | 43 :: rest => (queryUnescape rest).map (32 :: ·)
  | c :: rest => (queryUnescape rest).map (c :: ·)

/-- Appends a value under a key, grouping repeated keys the way `url.Values`
does (`m[key] = append(m[key], value)`). -/
def appendValue : List (Str × List Str) → Str → Str → List (Str × List Str)
  | [], k, v => [(k, [v])]
  | (k', vs) :: rest, k, v =>
    if k' = k then (k', vs ++ [v]) :: rest
    else (k', vs) :: appendValue rest k v

/-- The loop of `url.parseQuery` over `&`-separated segments.  Go records the
first error but keeps scanning; `Verify` only tests `err != nil`, so the model
collapses every erroneous query to `none`. -/
def parseQueryGo : List Str → List (Str × List Str) → Option (List (Str × List Str))
  | [], acc => some acc
  | seg :: rest, acc =>
    if seg = [] then parseQueryGo rest acc
    else if 59 ∈ seg then none   -- ';' is an invalid separator
    else
      let kv := cutAt 61 seg
      match queryUnescape kv.1, queryUnescape kv.2 with
      | some k, some v => parseQueryGo rest (appendValue acc k v)
      | _, _ => none

/-- `url.ParseQuery`.  Go iterates the resulting map in arbitrary order; the
model keeps first-appearance order, which fixes one of the behaviours Go may
exhibit. -/
def parseQuery (s : Str) : Option (List (Str × List Str)) :=
  parseQueryGo (splitOnChar 38 s) []

/-- Association-list lookup with byte-string keys (`url.Values` access). -/
def lookupStr {α : Type} : List (Str × α) → Str → Option α
  | [], _ => none
  | (k', v) :: rest, k => if k' = k then some v else lookupStr rest k

/-- `url.Values.Set`: replace the binding of `k`, or append a new one. -/
def setStr {α : Type} : List (Str × α) → Str → α → List (Str × α)
  | [], k, v => [(k, v)]
  | (k', v') :: rest, k, v =>
    if k' = k then (k, v) :: rest else (k', v') :: setStr rest k v

/-- `url.Values.Get`: the stored value, or the empty string. -/
def getV (m : List (Str × Str)) (k : Str) : Str := (lookupStr m k).getD []

/-! ### `time.Parse` with layout `20060102T150405Z`, and epoch conversion

Go's `time` package is standard library; instants are modelled as `Int`
nanoseconds since the Unix epoch, on the proleptic Gregorian calendar Go uses.
-/

/-- A wall-clock datetime as parsed from an `x-amz-date` value. -/
structure DateTime where
  year : Nat
  month : Nat
  day : Nat
  hour : Nat
  minute : Nat
  second : Nat
deriving DecidableEq

def isLeapYear (y : Nat) : Bool := y % 4 = 0 ∧ (y % 100 ≠ 0 ∨ y % 400 = 0)

def daysInMonth (y m : Nat) : Nat :=
  if m = 2 then (if isLeapYear y then 29 else 28)
  else if m = 4 ∨ m = 6 ∨ m = 9 ∨ m = 11 then 30
  else 31

/-- Digit byte value. -/
def digitVal (c : Nat) : Nat := c - 48

/-- `time.Parse(dateHeaderFormat, s)` for the layout `20060102T150405Z`:
exactly sixteen bytes, digits in the numeric fields, literal `T` and `Z`, and
the range validation `time.Parse` performs on each component. -/
def parseAmzDate (s : Str) : Option DateTime :=
  match s with
  | [y1, y2, y3, y4, m1, m2, d1, d2, t, h1, h2, mi1, mi2, s1, s2, z] =>
    if t = 84 ∧ z = 90 ∧
        [y1, y2, y3, y4, m1, m2, d1, d2, h1, h2, mi1, mi2, s1, s2].all isDigitByte then
      let year := digitVal y1 * 1000 + digitVal y2 * 100 + digitVal y3 * 10 + digitVal y4
      let month := digitVal m1 * 10 + digitVal m2
      let day := digitVal d1 * 10 + digitVal d2
      let hour := digitVal h1 * 10 + digitVal h2
      let minute := digitVal mi1 * 10 + digitVal mi2
      let second := digitVal s1 * 10 + digitVal s2
      if 1 ≤ month ∧ month ≤ 12 ∧ 1 ≤ day ∧ day ≤ daysInMonth year month ∧
          hour ≤ 23 ∧ minute ≤ 59 ∧ second ≤ 59 then
        some ⟨year, month, day, hour, minute, second⟩
      else none
    else none
  | _ => none

/-- Days from the civil date to 1970-01-01 (proleptic Gregorian). -/
def daysFromCivil (y m d : Nat) : Int :=
  let yi : Int := if m ≤ 2 then (y : Int) - 1 else (y : Int)
  let era : Int := yi.ediv 400
  let yoe : Int := yi - era * 400
  let mp : Int := if m > 2 then (m : Int) - 3 else (m : Int) + 9
  let doy : Int := (153 * mp + 2).ediv 5 + (d : Int) - 1
  let doe : Int := yoe * 365 + yoe.ediv 4 - yoe.ediv 100 + doy
  era * 146097 + doe - 719468

/-- The instant a parsed `x-amz-date` denotes, in nanoseconds since the epoch
(the layout carries a literal `Z`, so the zone is UTC). -/
def toEpochNanos (dt : DateTime) : Int :=
  (daysFromCivil dt.year dt.month dt.day * 86400 +
    (dt.hour : Int) * 3600 + (dt.minute : Int) * 60 + (dt.second : Int)) * 1000000000

/-- Go's `time.Time.String()` rendering of such a parsed UTC instant, used in
the expiry error message: `YYYY-MM-DD hh:mm:ss +0000 UTC`. -/
def goTimeString (dt : DateTime) : Str :=
  pad4 dt.year ++ [45] ++ pad2 dt.month ++ [45] ++ pad2 dt.day ++ [32] ++
    pad2 dt.hour ++ [58] ++ pad2 dt.minute ++ [58] ++ pad2 dt.second ++
    gostr " +0000 UTC"

/-- `strconv.Atoi`: optional sign, then at least one digit.  (Go additionally
errors on 64-bit overflow; `Verify` rejects any value outside `[0, 900]`
either way, so the overflow path is indistinguishable here.) -/
def parseDigitsGo : Str → Nat → Option Nat
  | [], acc => some acc
  | c :: rest, acc =>
    if isDigitByte c then parseDigitsGo rest (acc * 10 + digitVal c) else none

def parseDigits (s : Str) : Option Nat :=
  if s = [] then none else parseDigitsGo s 0

def atoi : Str → Option Int
  | 43 :: rest => (parseDigits rest).map Int.ofNat
  | 45 :: rest => (parseDigits rest).map fun n => -(n : Int)
  | s => (parseDigits s).map Int.ofNat

/-! ### The token verifier (`token.go`, `tokenVerifier.Verify`) -/

/-- The two error kinds of the verification path: `FormatError` and `STSError`
with their message fields (`Error()` adds a fixed prose wrapper around the
message, not modelled separately). -/
inductive VerifyError where
  | formatError (message : Str)
  | stsError (message : Str)
deriving DecidableEq

def VerifyError.isFormat : VerifyError → Bool
  | .formatError _ => true
  | .stsError _ => false

def VerifyError.isSTS : VerifyError → Bool
  | .formatError _ => false
  | .stsError _ => true

/-- `maxTokenLenBytes = 1024 * 4`. -/
def maxTokenLenBytes : Nat := 1024 * 4

/-- `v1Prefix = "k8s-aws-v1."` (named `v1Pfx` here). -/
def v1Pfx : Str := gostr "k8s-aws-v1."

/-- `clusterIDHeader = "x-k8s-aws-id"`. -/
def clusterIDHeader : Str := gostr "x-k8s-aws-id"

/-- `presignedURLExpiration = 15 * time.Minute`, in nanoseconds. -/
def presignedURLExpirationNanos : Int := 15 * 60 * 1000000000

/-- `parameterWhitelist` (a set in the source; a list of its keys here). -/
def parameterWhitelist : List Str :=
  [gostr "action", gostr "version", gostr "x-amz-algorithm",
   gostr "x-amz-credential", gostr "x-amz-date", gostr "x-amz-expires",
   gostr "x-amz-security-token", gostr "x-amz-signature",
   gostr "x-amz-signedheaders", gostr "x-amz-user-agent"]

/-- The result of `sts:GetCallerIdentity` after JSON decoding: the fields of
`getCallerIdentityWrapper.GetCallerIdentityResponse.GetCallerIdentityResult`. -/
structure GetCallerIdentityResult where
  account : Str
  arn : Str
  userID : Str
deriving DecidableEq

/-- `Identity`, the successful result of `Verify`. -/
structure Identity where
  arn : Str
  canonicalARN : Str
  accountID : Str
  userID : Str
  sessionName : Str
  accessKeyID : Str
deriving DecidableEq

/-- Modelled from the spec: `pkg/arn.Canonicalize` (§4.4) is not among the
source files, only its caller is.  An ARN matching
`arn:<partition>:sts::<account>:assumed-role/<role>/<session>` becomes
`arn:<partition>:iam::<account>:role/<role>`; any other ARN of the general
`arn:` shape is returned unchanged; a malformed one is an error. -/
def canonicalize (a : Str) : Except Str Str :=
  let parts := splitOnChar 58 a
  if parts.length < 6 ∨ parts.headD [] ≠ gostr "arn" then
    .error (gostr "arn: invalid prefix")
  else
    let partition := (parts.drop 1).headD []
    let service := (parts.drop 2).headD []
    let account := (parts.drop 4).headD []
    let resource := (parts.drop 5).headD []
    if service = gostr "sts" ∧ List.isPrefixOf (gostr "assumed-role/") resource then
      let rparts := splitOnChar 47 resource
      if rparts.length < 3 then .error (gostr "arn: not enough role parts")
      else .ok (gostr "arn:" ++ partition ++ gostr ":iam::" ++ account ++
                gostr ":role/" ++ (rparts.drop 1).headD [])
    else .ok a

/-- `tokenVerifier`: the cluster binding and the pre-computed hostname
allow-set.  `NewVerifier` fills `validSTShostnames` from the SDK endpoint
resolver over the partition's regions; the resolver is external, so the set is
a field here just as it is in the Go struct. -/
structure TokenVerifier where
  clusterID : Str
  validSTShostnames : List Str

/-- `tokenVerifier.verifyHost`. -/
def verifyHost (v : TokenVerifier) (host : Str) : Except VerifyError Unit :=
  if host ∈ v.validSTShostnames then .ok ()
  else .error (.formatError (gostr "unexpected hostname " ++ quoteStr host ++
    gostr " in pre-signed URL"))

/-- `hasSignedClusterIDHeader`: `x-amz-signedheaders` split on `;`, with a
case-insensitive match against `x-k8s-aws-id`. -/
def hasSignedClusterIDHeader (paramsLower : List (Str × Str)) : Bool :=
  (splitOnChar 59 (getV paramsLower (gostr "x-amz-signedheaders"))).any
    fun hdr => toLowerStr hdr = toLowerStr clusterIDHeader

/-- The whitelist loop of `Verify`: each key must be whitelisted
case-insensitively and carry exactly one value; surviving pairs are stored
under the lowercased key via `url.Values.Set`.  (Go iterates its map in
arbitrary order; the model fixes first-appearance order.) -/
def checkParamsGo : List (Str × List Str) → List (Str × Str) →
    Except VerifyError (List (Str × Str))
  | [], acc => .ok acc
  | (k, vs) :: rest, acc =>
    if toLowerStr k ∉ parameterWhitelist then
      .error (.formatError (gostr "non-whitelisted query parameter " ++ quoteStr k))
    else if vs.length ≠ 1 then
      .error (.formatError (gostr "query parameter with multiple values not supported"))
    else checkParamsGo rest (setStr acc (toLowerStr k) (vs.headD []))

/-- What the static section of `Verify` (everything before the clock is read)
establishes. -/
structure StaticOk where
  parsedURL : GoURL
  queryParamsLower : List (Str × Str)
  accessKeyID : Str
  dateParam : DateTime
deriving DecidableEq

/-- The checks of `Verify` from the length test down to parsing `x-amz-date`,
in source order; every failure is a `FormatError`.  The two messages produced
inside external libraries (`base64.CorruptInputError`, `url.Parse`) are
abstracted to fixed texts. -/
def verifyStatic (v : TokenVerifier) (token : Str) : Except VerifyError StaticOk :=
  if token.length > maxTokenLenBytes then
    .error (.formatError (gostr "token is too large"))
  else if ¬ List.isPrefixOf v1Pfx token then
    .error (.formatError (gostr "token is missing expected " ++ quoteStr v1Pfx ++
      gostr " prefix"))
  else
    match base64RawUrlDecode (token.drop v1Pfx.length) with
    | none => .error (.formatError (gostr "illegal base64 data"))
    | some tokenBytes =>
      match parseURL tokenBytes with
      | none => .error (.formatError (gostr "net/url: invalid control character in URL"))
      | some parsedURL =>
        if parsedURL.scheme ≠ gostr "https" then
          .error (.formatError (gostr "unexpected scheme " ++ quoteStr parsedURL.scheme ++
            gostr " in pre-signed URL"))
        else
          match verifyHost v parsedURL.host with
          | .error e => .error e
          | .ok _ =>
            if parsedURL.path ≠ gostr "/" then
              .error (.formatError (gostr "unexpected path in pre-signed URL"))
            else
              match parseQuery parsedURL.rawQuery with
              | none => .error (.formatError (gostr "malformed query parameter"))
              | some queryParams =>
                match checkParamsGo queryParams [] with
                | .error e => .error e
                | .ok queryParamsLower =>
                  if getV queryParamsLower (gostr "action") ≠ gostr "GetCallerIdentity" then
                    .error (.formatError (gostr "unexpected action parameter in pre-signed URL"))
                  else if ¬ hasSignedClusterIDHeader queryParamsLower then
                    .error (.formatError (gostr "client did not sign the " ++ clusterIDHeader ++
                      gostr " header in the pre-signed URL"))
                  else
                    match atoi (getV queryParamsLower (gostr "x-amz-expires")) with
                    | none =>
                      -- on an Atoi error Go formats the zero value of `expires`
                      .error (.formatError (gostr "invalid X-Amz-Expires parameter in pre-signed URL: 0"))
                    | some expires =>
                      if expires < 0 ∨ expires > 900 then
                        .error (.formatError (gostr "invalid X-Amz-Expires parameter in pre-signed URL: " ++
                          intToStr expires))
                      else if getV queryParamsLower (gostr "x-amz-date") = [] then
                        .error (.formatError (gostr "X-Amz-Date parameter must be present in pre-signed URL"))
                      else
                        -- the local `accessKeyID` of the source is inlined into
                        -- the record below; `date` is inlined as its `getV`
                        match parseAmzDate (getV queryParamsLower (gostr "x-amz-date")) with
                        | none =>
                          .error (.formatError (gostr "error parsing X-Amz-Date parameter " ++
                            getV queryParamsLower (gostr "x-amz-date") ++
                            gostr " into format 20060102T150405Z"))
                        | some dateParam =>
                          .ok { parsedURL := parsedURL, queryParamsLower := queryParamsLower,
                                accessKeyID :=
                                  (splitOnChar 47 (getV queryParamsLower (gostr "x-amz-credential"))).headD [],
                                dateParam := dateParam }

/-- The pre-call section of `Verify`: the static checks, then the temporal
check `now.After(dateParam.Add(presignedURLExpiration))`, the only point where
the clock is read. -/
def verifyPre (v : TokenVerifier) (token : Str) (now : Int) :
    Except VerifyError StaticOk :=
  match verifyStatic v token with
  | .error e => .error e
  | .ok s =>
    if now > toEpochNanos s.dateParam + presignedURLExpirationNanos then
      .error (.formatError (gostr "X-Amz-Date parameter is expired (15 minute expiration) " ++
        goTimeString s.dateParam))
    else .ok s

/-- What the HTTP transport hands back for the outbound GET: a transport
error (`client.Do`, with the `url.Error` wrapper already stripped as the code
does), a body-read error, or a status code with a body. -/
inductive HttpOutcome where
  | transportError (message : Str)
  | readError (message : Str)
  | response (statusCode : Nat) (body : Str)

/-- The identity construction after a 200 response is decoded (`Verify` from
`arn.Canonicalize` to the `UserID` split). -/
def handleCallerIdentity (accessKeyID : Str) (ci : GetCallerIdentityResult) :
    Except VerifyError Identity :=
  match canonicalize ci.arn with
  | .error e => .error (.stsError e)
  | .ok canonicalARN =>
    -- the local `userIDParts := strings.Split(userID, ":")` is inlined
    if (splitOnChar 58 ci.userID).length = 2 then
      .ok { arn := ci.arn, canonicalARN := canonicalARN, accountID := ci.account,
            userID := (splitOnChar 58 ci.userID).headD [],
            sessionName := ((splitOnChar 58 ci.userID).drop 1).headD [],
            accessKeyID := accessKeyID }
    else if (splitOnChar 58 ci.userID).length = 1 then
      .ok { arn := ci.arn, canonicalARN := canonicalARN, accountID := ci.account,
            userID := (splitOnChar 58 ci.userID).headD [], sessionName := [],
            accessKeyID := accessKeyID }
    else
      .error (.stsError (gostr "malformed UserID " ++ quoteStr ci.userID))

/-- `tokenVerifier.Verify`.  `http` is the transport oracle: it receives the
request URL and the `x-k8s-aws-id` header value (`v.clusterID`) the code sets
on the GET.  `unmarshalGCI` is the `encoding/json` oracle for the response
body. -/
def verify (v : TokenVerifier) (token : Str) (now : Int)
    (http : GoURL → Str → HttpOutcome)
    (unmarshalGCI : Str → Except Str GetCallerIdentityResult) :
    Except VerifyError Identity :=
  match verifyPre v token now with
  | .error e => .error e
  | .ok s =>
    match http s.parsedURL v.clusterID with
    | .transportError m => .error (.stsError (gostr "error during GET: " ++ m))
    | .readError m => .error (.stsError (gostr "error reading HTTP result: " ++ m))
    | .response status body =>
      if status ≠ 200 then
        .error (.stsError (gostr "error from AWS (expected 200, got " ++ natToStr status ++
          gostr "). Body: " ++ body))
      else
        match unmarshalGCI body with
        | .error m => .error (.stsError m)
        | .ok ci => handleCallerIdentity s.accessKeyID ci

/-! ### The token generator (`generator.GetWithSTS`, `generator.GetWithOptions`) -/

/-- `Token`: the opaque string and its client-side expiration instant. -/
structure GoToken where
  token : Str
  expiration : Int
deriving DecidableEq

/-- `generator.GetWithSTS`.  The presigner is external: `presignResult` is the
URL it returns (or its error, which `GetWithSTS` propagates).  On success the
token is `v1Prefix + base64.RawURLEncoding(url)` and the expiration is
`time.Now()` plus `presignedURLExpiration - 1*time.Minute`. -/
def getWithSTS (now : Int) (presignResult : Except Str Str) : Except Str GoToken :=
  match presignResult with
  | .error e => .error e
  | .ok url =>
    .ok { token := v1Pfx ++ base64RawUrlEncode url,
          expiration := now + (presignedURLExpirationNanos - 60 * 1000000000) }

/-- `GetTokenOptions` (the `Session` field, an SDK value, stays outside the
model). -/
structure GetTokenOptions where
  region : Str
  clusterID : Str
  assumeRoleARN : Str
  assumeRoleExternalID : Str
  sessionName : Str
deriving DecidableEq

/-- The configuration the replacement `stscreds.AssumeRoleProvider` ends up
with: `NewAssumeRoleProvider` runs its option closure once at construction,
setting `ExternalID` and `RoleSessionName` only for non-empty strings. -/
structure AssumeRoleProviderConfig where
  roleARN : Str
  externalID : Option Str
  roleSessionName : Option Str
deriving DecidableEq

/-- The `options.AssumeRoleARN != ""` branch of `generator.GetWithOptions`
(source lines 796-835).  `gci` is the identity-service oracle for the
`GetCallerIdentity` call made when `forwardSessionName` is set.

The Go code declares `var sessionName string` and appends closures that would
assign to it into `sessionSetters` — but `sessionSetters` is never invoked or
passed anywhere, so by the time `NewAssumeRoleProvider` runs its option
closure, `sessionName` still holds its zero value `""`.  The model keeps the
collected-but-never-run assignments as the unused `sessionSetters` lists. -/
def assumeRoleProviderFor (forwardSessionName : Bool) (options : GetTokenOptions)
    (gci : Except Str Str) : Except Str AssumeRoleProviderConfig :=
  let sessionName : Str := []
  let mk : Str → AssumeRoleProviderConfig := fun sn =>
    { roleARN := options.assumeRoleARN,
      externalID := if options.assumeRoleExternalID ≠ [] then
        some options.assumeRoleExternalID else none,
      roleSessionName := if sn ≠ [] then some sn else none }
  if forwardSessionName then
    match gci with
    | .error e => .error e
    | .ok userID =>
      let userIDParts := splitOnChar 58 userID
      -- deferred assignment collected when len(userIDParts) == 2, never run
      let sessionSetters : List Str :=
        if userIDParts.length = 2 then [(userIDParts.drop 1).headD []] else []
      .ok (mk sessionName)
  else
    -- deferred assignment collected when options.SessionName != "", never run
    let sessionSetters : List Str :=
      if options.sessionName ≠ [] then [options.sessionName] else []
    .ok (mk sessionName)

/-! ### The credential file cache

The implementation (`filecache.go`) is not among the source files — only its
test suite is — so the definitions below are modelled from the spec (§4.1,
§4.2 step 3, §7) and checked shapes of that test suite.  Filesystem,
environment and lock are capabilities; their outcomes are oracle inputs. -/

/-- `aws.Credentials` as the cache stores it. -/
structure AwsCredentials where
  accessKeyId : Str
  secretAccessKey : Str
  sessionToken : Str
  source : Str
  canExpire : Bool
  expires : Int
deriving DecidableEq

/-- Modelled from the spec: a credential is expired when
`can_expire && now ≥ expires_at`. -/
def credentialExpired (c : AwsCredentials) (now : Int) : Bool :=
  c.canExpire ∧ now ≥ c.expires

/-- Modelled from the spec: the cached credential, absent or present; absent
reports expired. -/
def cachedExpired : Option AwsCredentials → Int → Bool
  | none, _ => true
  | some c, now => credentialExpired c now

/-- The nested cache-file mapping `clusters → cluster_id → profile → role_arn
→ credential`, as an association structure. -/
abbrev CacheFile := List (Str × List (Str × List (Str × AwsCredentials)))

/-- Lookup of the `(cluster_id, profile, role_arn)` path. -/
def cacheGet (cf : CacheFile) (clusterID profile roleARN : Str) :
    Option AwsCredentials := do
  let byProfile ← lookupStr cf clusterID
  let byARN ← lookupStr byProfile profile
  lookupStr byARN roleARN

/-- Unconditional write of the nested entry. -/
def cachePutRaw (cf : CacheFile) (clusterID profile roleARN : Str)
    (c : AwsCredentials) : CacheFile :=
  let byProfile := (lookupStr cf clusterID).getD []
  let byARN := (lookupStr byProfile profile).getD []
  setStr cf clusterID (setStr byProfile profile (setStr byARN roleARN c))

/-- Modelled from the spec: upsert of the `(cluster_id, profile, role_arn)`
entry, keeping whichever credential has the later `expires_at`. -/
def cachePut (cf : CacheFile) (clusterID profile roleARN : Str)
    (c : AwsCredentials) : CacheFile :=
  match cacheGet cf clusterID profile roleARN with
  | some old => if old.expires > c.expires then cf else cachePutRaw cf clusterID profile roleARN c
  | none => cachePutRaw cf clusterID profile roleARN c

/-- `Getenv` over an environment (absent means the empty string Go returns). -/
def getenvD (env : List (Str × Str)) (k : Str) : Str := (lookupStr env k).getD []

/-- Modelled from the spec: `CacheFilename()`.  The override environment
variable wins; otherwise the home directory (`HOME`, falling back to
`USERPROFILE`) is joined with the fixed relative path. -/
def cacheFilename (env : List (Str × Str)) : Str :=
  let override := getenvD env (gostr "AWS_IAM_AUTHENTICATOR_CACHE_FILE")
  if override ≠ [] then override
  else
    let home := if getenvD env (gostr "HOME") ≠ [] then getenvD env (gostr "HOME")
      else getenvD env (gostr "USERPROFILE")
    home ++ gostr "/.kube/cache/aws-iam-authenticator/credentials.yaml"

/-- Outcome of reading-and-parsing the cache file under the shared lock: a
read error, unparseable contents, or a parsed mapping.  A missing or empty
file never reaches this read (missing is caught by `Stat`; empty contents
parse to the empty mapping, which the `parsed` case carries). -/
inductive ReadOutcome where
  | readErr (message : Str)
  | unparseable (message : Str)
  | parsed (cf : CacheFile)

/-- What the filesystem capability reports during `NewFileCacheProvider`:
`statMode = none` models `os.IsNotExist`, `some m` an existing file with
permission bits `m`. -/
structure FsView where
  statMode : Option Nat
  readOutcome : ReadOutcome

/-- The lock capability's outcomes: whether the shared (read) and exclusive
lock acquisitions succeed within their deadlines. -/
structure LockView where
  rlockOk : Bool
  lockOk : Bool

/-- `FileCacheProvider`: the cache key and the credential loaded at `open`. -/
structure FileCacheProvider where
  clusterID : Str
  profile : Str
  roleARN : Str
  cachedCredential : Option AwsCredentials

/-- Modelled from the spec: `NewFileCacheProvider` (§4.1 Initialization).  A
missing file yields an expired (absent) cached credential; an existing file
must have owner-only permissions, take the shared lock, and read and parse;
the `(cluster_id, profile, role_arn)` path may be absent.  (`MkdirAll`'s
result is discarded by the code, so it does not appear.) -/
def newFileCacheProvider (clusterID profile roleARN : Str) (fs : FsView)
    (lk : LockView) : Except Str FileCacheProvider :=
  match fs.statMode with
  | none =>
    .ok { clusterID := clusterID, profile := profile, roleARN := roleARN,
          cachedCredential := none }
  | some mode =>
    if mode &&& 0o077 ≠ 0 then .error (gostr "cache file is not private")
    else if ¬ lk.rlockOk then .error (gostr "unable to read lock cache file")
    else
      match fs.readOutcome with
      | .readErr m => .error m
      | .unparseable m => .error m
      | .parsed cf =>
        .ok { clusterID := clusterID, profile := profile, roleARN := roleARN,
              cachedCredential := cacheGet cf clusterID profile roleARN }

/-- A `WriteFile` call the cache attempts: target path, permission bits, and
the mapping serialized (the YAML encoder is external, so the structured value
stands for its serialization). -/
structure WriteAttempt where
  filename : Str
  perm : Nat
  contents : CacheFile

/-- Modelled from the spec: the refresh path of `Retrieve` once the cached
credential is expired.  The upstream provider's error propagates; a credential
that cannot expire is returned without persistence; otherwise the exclusive
lock is attempted and on failure the credential is still returned; under the
lock the file is re-read (a failed re-read degrades to the empty mapping), the
entry upserted, and the write attempted — whose failure is swallowed
(`writeOk` does not influence the result). -/
def fileCacheRefresh (p : FileCacheProvider) (env : List (Str × Str))
    (upstream : Except Str AwsCredentials) (lk : LockView) (writeOk : Bool)
    (reread : ReadOutcome) : Except Str AwsCredentials × List WriteAttempt :=
  match upstream with
  | .error e => (.error e, [])
  | .ok cred =>
    if ¬ cred.canExpire then (.ok cred, [])
    else if ¬ lk.lockOk then (.ok cred, [])
    else
      let cache := match reread with | .parsed cf => cf | _ => []
      let cache' := cachePut cache p.clusterID p.profile p.roleARN cred
      (.ok cred, [{ filename := cacheFilename env, perm := 0o600, contents := cache' }])

/-- Modelled from the spec: `FileCacheProvider.Retrieve`.  A non-expired
cached credential is returned with no I/O; otherwise the upstream provider is
consulted and the refresh path runs. -/
def fileCacheRetrieve (p : FileCacheProvider) (env : List (Str × Str)) (now : Int)
    (upstream : Except Str AwsCredentials) (lk : LockView) (writeOk : Bool)
    (reread : ReadOutcome) : Except Str AwsCredentials × List WriteAttempt :=
  match p.cachedCredential with
  | some c =>
    if credentialExpired c now then fileCacheRefresh p env upstream lk writeOk reread
    else (.ok c, [])
  | none => fileCacheRefresh p env upstream lk writeOk reread

/-! ### Concrete sample data used by witnesses and counterexamples -/

/-- A verifier bound to one allow-listed STS hostname (the allow-set is a
plain field of `tokenVerifier`, filled by the external endpoint resolver). -/
def sampleVerifier : TokenVerifier :=
  { clusterID := gostr "test-cluster", validSTShostnames := [gostr "sts.amazonaws.com"] }

/-- A presigned-URL body that satisfies every structural check and carries
neither `X-Amz-Signature` nor `X-Amz-Credential`. -/
def sampleURL : Str :=
  gostr "https://sts.amazonaws.com/?Action=GetCallerIdentity&X-Amz-Expires=60&X-Amz-SignedHeaders=x-k8s-aws-id&X-Amz-Date=20200919T131400Z"

/-- The token encoding `sampleURL`. -/
def sampleToken : Str := v1Pfx ++ base64RawUrlEncode sampleURL

/-- The `x-amz-date` instant of `sampleURL`. -/
def sampleDate : DateTime := ⟨2020, 9, 19, 13, 14, 0⟩

/-- The lowered query parameters `Verify` derives from `sampleURL`. -/
def sampleParams : List (Str × Str) :=
  [(gostr "action", gostr "GetCallerIdentity"),
   (gostr "x-amz-expires", gostr "60"),
   (gostr "x-amz-signedheaders", gostr "x-k8s-aws-id"),
   (gostr "x-amz-date", gostr "20200919T131400Z")]

/-- The parsed form of `sampleURL`. -/
def sampleParsedURL : GoURL :=
  { scheme := gostr "https", host := gostr "sts.amazonaws.com", path := gostr "/",
    rawQuery := gostr "Action=GetCallerIdentity&X-Amz-Expires=60&X-Amz-SignedHeaders=x-k8s-aws-id&X-Amz-Date=20200919T131400Z" }

/-- A token whose decoded URL has scheme `https`, a non-allow-listed host and
a path other than `/`. -/
def evilToken : Str := v1Pfx ++ base64RawUrlEncode (gostr "https://evil.example.com/x")

/-- A transport oracle that always fails, marking that the outbound call was
attempted. -/
def failingHttp : GoURL → Str → HttpOutcome :=
  fun _ _ => .transportError (gostr "dial refused")

/-- A transport oracle returning status 200 with a fixed body tag. -/
def okHttp : GoURL → Str → HttpOutcome := fun _ _ => .response 200 (gostr "BODY")

/-- A JSON oracle decoding the fixed body to an assumed-role caller identity
whose `UserId` is `AROAEXAMPLE:sess-1`. -/
def sampleUnmarshal : Str → Except Str GetCallerIdentityResult :=
  fun _ => .ok { account := gostr "123456789012",
                 arn := gostr "arn:aws:sts::123456789012:assumed-role/admin/sess-1",
                 userID := gostr "AROAEXAMPLE:sess-1" }

/-- A JSON oracle that always fails to decode. -/
def failingUnmarshal : Str → Except Str GetCallerIdentityResult :=
  fun _ => .error (gostr "unexpected end of JSON input")

/-! ## Supporting lemmas -/

/-- Induction along the three-byte chunks `base64RawUrlEncode` consumes. -/
theorem chunk3Induction {P : List Nat → Prop} (h0 : P []) (h1 : ∀ x, P [x])
    (h2 : ∀ x y, P [x, y])
    (h3 : ∀ x y z rest, P rest → P (x :: y :: z :: rest)) :
    ∀ l, P l
  | [] => h0
  | [x] => h1 x
  | [x, y] => h2 x y
  | x :: y :: z :: rest => h3 x y z rest (chunk3Induction h0 h1 h2 h3 rest)

/-- Decoding inverts the alphabet map on six-bit values. -/
theorem b64Val_encChar (v : Nat) (h : v < 64) : b64Val (encChar v) = some v := by
  unfold b64Val encChar
  split_ifs <;> first | (simp only [Option.some.injEq]; omega) | omega

/-- The encoder only emits alphabet bytes (in particular never the padding
byte `=`). -/
theorem base64_encode_alphabet :
    ∀ bs : List Nat, (∀ b ∈ bs, b < 256) →
      (base64RawUrlEncode bs).all (fun c => (b64Val c).isSome) = true := by
  refine chunk3Induction ?_ ?_ ?_ ?_
  · intro _; rfl
  · intro x h
    have hx : x < 256 := h x (by simp)
    simp only [base64RawUrlEncode, List.all_cons, List.all_nil, Bool.and_true]
    rw [b64Val_encChar _ (by omega), b64Val_encChar _ (by omega)]
    rfl
  · intro x y h
    have hx : x < 256 := h x (by simp)
    have hy : y < 256 := h y (by simp)
    simp only [base64RawUrlEncode, List.all_cons, List.all_nil, Bool.and_true]
    rw [b64Val_encChar _ (by omega), b64Val_encChar _ (by omega),
      b64Val_encChar _ (by omega)]
    rfl
  · intro x y z rest ih h
    have hx : x < 256 := h x (by simp)
    have hy : y < 256 := h y (by simp)
    have hz : z < 256 := h z (by simp)
    have hrest : ∀ b ∈ rest, b < 256 := fun b hb => h b (by simp [hb])
    simp only [base64RawUrlEncode, List.all_cons]
    rw [b64Val_encChar _ (by omega), b64Val_encChar _ (by omega),
      b64Val_encChar _ (by omega), b64Val_encChar _ (by omega), ih hrest]
    rfl

/-- Round trip: decoding the encoder's output recovers the input bytes, so
the emitted text is exactly the URL-safe unpadded base64 of the input. -/
theorem base64_encode_decode :
    ∀ bs : List Nat, (∀ b ∈ bs, b < 256) →
      base64RawUrlDecode (base64RawUrlEncode bs) = some bs := by
  refine chunk3Induction ?_ ?_ ?_ ?_
  · intro _; rfl
  · intro x h
    have hx : x < 256 := h x (by simp)
    simp only [base64RawUrlEncode, base64RawUrlDecode]
    rw [b64Val_encChar _ (by omega), b64Val_encChar _ (by omega)]
    simp only [Option.some.injEq, List.cons.injEq, and_true]
    omega
  · intro x y h
    have hx : x < 256 := h x (by simp)
    have hy : y < 256 := h y (by simp)
    simp only [base64RawUrlEncode, base64RawUrlDecode]
    rw [b64Val_encChar _ (by omega), b64Val_encChar _ (by omega),
      b64Val_encChar _ (by omega)]
    simp only [Option.some.injEq, List.cons.injEq, and_true]
    omega
  · intro x y z rest ih h
    have hx : x < 256 := h x (by simp)
    have hy : y < 256 := h y (by simp)
    have hz : z < 256 := h z (by simp)
    have hrest : ∀ b ∈ rest, b < 256 := fun b hb => h b (by simp [hb])
    simp only [base64RawUrlEncode, base64RawUrlDecode]
    rw [b64Val_encChar _ (by omega), b64Val_encChar _ (by omega),
      b64Val_encChar _ (by omega), b64Val_encChar _ (by omega), ih hrest]
    simp only [Option.some.injEq, List.cons.injEq]
    refine ⟨by omega, by omega, by omega, trivial⟩

/-- A `verifyHost` failure is a `FormatError`. -/
theorem verifyHost_error_isFormat (v : TokenVerifier) (host : Str) (e : VerifyError)
    (h : verifyHost v host = .error e) : e.isFormat = true := by
  unfold verifyHost at h
  split at h
  · exact absurd h (by simp)
  · cases h; rfl

/-- A whitelist-loop failure is a `FormatError`. -/
theorem checkParamsGo_error_isFormat :
    ∀ (ps : List (Str × List Str)) (acc : List (Str × Str)) (e : VerifyError),
      checkParamsGo ps acc = .error e → e.isFormat = true
  | [], _, _, h => by simp [checkParamsGo] at h
  | (k, vs) :: rest, acc, e, h => by
    unfold checkParamsGo at h
    split at h
    · cases h; rfl
    · split at h
      · cases h; rfl
      · exact checkParamsGo_error_isFormat rest _ e h

/-- Every failure of the static checks is a `FormatError`. -/
theorem verifyStatic_error_isFormat (v : TokenVerifier) (token : Str) (e : VerifyError)
    (h : verifyStatic v token = .error e) : e.isFormat = true := by
  unfold verifyStatic at h
  repeat' split at h
  all_goals first
    | (cases h; rfl)
    | exact Except.noConfusion h
    | (cases h; exact verifyHost_error_isFormat _ _ _ (by assumption))
    | (cases h; exact checkParamsGo_error_isFormat _ _ _ (by assumption))

/-- Every failure of the identity construction after a decoded 200 response
is an `STSError`. -/
theorem handleCallerIdentity_error_isSTS (accessKeyID : Str)
    (ci : GetCallerIdentityResult) (e : VerifyError)
    (h : handleCallerIdentity accessKeyID ci = .error e) : e.isSTS = true := by
  unfold handleCallerIdentity at h
  split at h
  · cases h; rfl
  · split at h
    · exact Except.noConfusion h
    · split at h
      · exact Except.noConfusion h
      · cases h; rfl

/-! ## Claim theorems -/

/-- C1 (counterexample): the claim asserts that at the exact boundary instant
`now = x-amz-date + 15min` Verify returns a `FormatError` and makes no
outbound call.  On a token passing all static checks, at exactly that instant,
Verify instead proceeds to the outbound call: the transport failure surfaces
as an `STSError`, so the boundary instant passes the temporal check. -/
theorem c1_counterexample :
    verify sampleVerifier sampleToken
        (toEpochNanos sampleDate + presignedURLExpirationNanos)
        failingHttp sampleUnmarshal =
      .error (.stsError (gostr "error during GET: dial refused")) := by decide

/-- C1 (amended): once the static checks have passed, the temporal check
passes exactly when `now ≤ x-amz-date + 15min` — the boundary instant passes —
and for `now > x-amz-date + 15min` Verify returns the expiry `FormatError`. -/
theorem c1_temporalBoundary (v : TokenVerifier) (token : Str) (now : Int)
    (s : StaticOk) (h : verifyStatic v token = .ok s) :
    (verifyPre v token now = .ok s ↔
      now ≤ toEpochNanos s.dateParam + presignedURLExpirationNanos) ∧
    (now > toEpochNanos s.dateParam + presignedURLExpirationNanos →
      verifyPre v token now = .error (.formatError
        (gostr "X-Amz-Date parameter is expired (15 minute expiration) " ++
          goTimeString s.dateParam))) := by
  have hiff : verifyPre v token now =
      if now > toEpochNanos s.dateParam + presignedURLExpirationNanos then
        .error (.formatError (gostr "X-Amz-Date parameter is expired (15 minute expiration) " ++
          goTimeString s.dateParam))
      else .ok s := by
    unfold verifyPre
    rw [h]
  rw [hiff]
  constructor
  · constructor
    · intro hok
      by_contra hgt
      rw [if_pos (by omega)] at hok
      exact Except.noConfusion hok
    · intro hle
      rw [if_neg (by omega)]
  · intro hgt
    rw [if_pos hgt]

/-- C1 witness: the amended boundary property instantiated on the sample
token. -/
theorem c1_witness :
    (verifyPre sampleVerifier sampleToken 1600522140000000000 =
        .ok ⟨sampleParsedURL, sampleParams, [], sampleDate⟩ ↔
      (1600522140000000000 : Int) ≤ toEpochNanos sampleDate + presignedURLExpirationNanos) ∧
    ((1600522140000000000 : Int) > toEpochNanos sampleDate + presignedURLExpirationNanos →
      verifyPre sampleVerifier sampleToken 1600522140000000000 = .error (.formatError
        (gostr "X-Amz-Date parameter is expired (15 minute expiration) " ++
          goTimeString sampleDate))) :=
  c1_temporalBoundary sampleVerifier sampleToken 1600522140000000000
    ⟨sampleParsedURL, sampleParams, [], sampleDate⟩ (by decide)

/-- C2: failures of the pre-call checks are `FormatError`s and leave the
result independent of the transport and JSON oracles (no outbound call is
observable); once the pre-call checks pass, every failure of `Verify` is an
`STSError`. -/
theorem c2_errorPartition (v : TokenVerifier) (token : Str) (now : Int)
    (http http2 : GoURL → Str → HttpOutcome)
    (um um2 : Str → Except Str GetCallerIdentityResult) :
    (∀ e, verifyPre v token now = .error e →
      e.isFormat = true ∧ verify v token now http um = .error e ∧
        verify v token now http um = verify v token now http2 um2) ∧
    (∀ s, verifyPre v token now = .ok s →
      ∀ e, verify v token now http um = .error e → e.isSTS = true) := by
  constructor
  · intro e he
    have hfmt : e.isFormat = true := by
      unfold verifyPre at he
      split at he
      · cases he; exact verifyStatic_error_isFormat _ _ _ (by assumption)
      · split at he
        · cases he; rfl
        · exact Except.noConfusion he
    refine ⟨hfmt, ?_, ?_⟩ <;> (unfold verify; rw [he])
  · intro s hs e h
    have hpost : (match http s.parsedURL v.clusterID with
        | .transportError m => .error (.stsError (gostr "error during GET: " ++ m))
        | .readError m => .error (.stsError (gostr "error reading HTTP result: " ++ m))
        | .response status body =>
          if status ≠ 200 then
            .error (.stsError (gostr "error from AWS (expected 200, got " ++ natToStr status ++
              gostr "). Body: " ++ body))
          else
            match um body with
            | .error m => .error (.stsError m)
            | .ok ci => handleCallerIdentity s.accessKeyID ci) =
        (.error e : Except VerifyError Identity) := by
      rw [← h]
      unfold verify
      rw [hs]
    clear h
    rcases hh : http s.parsedURL v.clusterID with m | m | ⟨status, body⟩
    · simp only [hh] at hpost
      cases hpost; rfl
    · simp only [hh] at hpost
      cases hpost; rfl
    · simp only [hh] at hpost
      split at hpost
      · cases hpost; rfl
      · rcases hu : um body with m | ci
        · simp only [hu] at hpost
          cases hpost; rfl
        · simp only [hu] at hpost
          exact handleCallerIdentity_error_isSTS _ _ _ hpost

/-- C2 witness: a token without the version tag fails a pre-call check; the
resulting error is a `FormatError` and the result does not change when the
transport and JSON oracles do. -/
theorem c2_witness :
    (VerifyError.formatError (gostr "token is missing expected " ++ quoteStr v1Pfx ++
      gostr " prefix")).isFormat = true ∧
    verify sampleVerifier (gostr "zzz") 0 failingHttp sampleUnmarshal =
      .error (.formatError (gostr "token is missing expected " ++ quoteStr v1Pfx ++
        gostr " prefix")) ∧
    verify sampleVerifier (gostr "zzz") 0 failingHttp sampleUnmarshal =
      verify sampleVerifier (gostr "zzz") 0 okHttp failingUnmarshal :=
  (c2_errorPartition sampleVerifier (gostr "zzz") 0 failingHttp okHttp
    sampleUnmarshal failingUnmarshal).1 _ (by decide)

/-- C5 (counterexample): the claim asserts the path check happens before the
hostname check, so a token with a non-allow-listed host and a path other than
`/` would get the path `FormatError`.  On such a token Verify returns the
hostname `FormatError` instead, which is a different message. -/
theorem c5_counterexample :
    verify sampleVerifier evilToken 0 failingHttp sampleUnmarshal =
      .error (.formatError (gostr "unexpected hostname " ++
        quoteStr (gostr "evil.example.com") ++ gostr " in pre-signed URL")) ∧
    gostr "unexpected hostname " ++ quoteStr (gostr "evil.example.com") ++
        gostr " in pre-signed URL" ≠
      gostr "unexpected path in pre-signed URL" := by decide

/-- C5 (amended): the hostname check precedes the path check: any token whose
decoded URL has scheme `https` and a non-allow-listed host is rejected with
the hostname `FormatError`, whatever its path. -/
theorem c5_hostBeforePath (v : TokenVerifier) (token : Str) (now : Int)
    (bs : Str) (u : GoURL)
    (hlen : token.length ≤ maxTokenLenBytes)
    (hpre : List.isPrefixOf v1Pfx token = true)
    (hdec : base64RawUrlDecode (token.drop v1Pfx.length) = some bs)
    (hurl : parseURL bs = some u)
    (hscheme : u.scheme = gostr "https")
    (hhost : u.host ∉ v.validSTShostnames) :
    verifyPre v token now = .error (.formatError (gostr "unexpected hostname " ++
      quoteStr u.host ++ gostr " in pre-signed URL")) := by
  have h1 : ¬ token.length > maxTokenLenBytes := by omega
  simp only [verifyPre, verifyStatic, verifyHost, h1, hpre, hdec, hurl, hscheme, hhost,
    not_false_eq_true, not_true_eq_false, if_true, if_false, ite_true, ite_false, ne_eq,
    not_false_iff]

/-- C5 witness: the amended ordering property instantiated on the concrete
evil token. -/
theorem c5_witness :
    verifyPre sampleVerifier evilToken 0 = .error (.formatError
      (gostr "unexpected hostname " ++ quoteStr (gostr "evil.example.com") ++
        gostr " in pre-signed URL")) :=
  c5_hostBeforePath sampleVerifier evilToken 0 (gostr "https://evil.example.com/x")
    ⟨gostr "https", gostr "evil.example.com", gostr "/x", []⟩
    (by decide) (by decide) (by decide) (by decide) (by decide) (by decide)

/-- C6: after a decoded 200 response whose ARN canonicalizes, splitting
`UserId` on `:` determines the identity: one element yields an IAM-user
identity with that element as `UserID` and an empty `SessionName`; two
elements yield `UserID` and `SessionName`; any other count is an `STSError`. -/
theorem c6_userIdSplit (accessKeyID : Str) (ci : GetCallerIdentityResult)
    (ca : Str) (hca : canonicalize ci.arn = .ok ca) :
    (∀ u, splitOnChar 58 ci.userID = [u] →
      handleCallerIdentity accessKeyID ci =
        .ok { arn := ci.arn, canonicalARN := ca, accountID := ci.account,
              userID := u, sessionName := [], accessKeyID := accessKeyID }) ∧
    (∀ u sn, splitOnChar 58 ci.userID = [u, sn] →
      handleCallerIdentity accessKeyID ci =
        .ok { arn := ci.arn, canonicalARN := ca, accountID := ci.account,
              userID := u, sessionName := sn, accessKeyID := accessKeyID }) ∧
    ((splitOnChar 58 ci.userID).length ≠ 1 → (splitOnChar 58 ci.userID).length ≠ 2 →
      handleCallerIdentity accessKeyID ci =
        .error (.stsError (gostr "malformed UserID " ++ quoteStr ci.userID))) := by
  refine ⟨?_, ?_, ?_⟩
  · intro u hu
    unfold handleCallerIdentity
    rw [hca]
    simp [hu]
  · intro u sn hu
    unfold handleCallerIdentity
    rw [hca]
    simp [hu]
  · intro h1 h2
    unfold handleCallerIdentity
    rw [hca]
    simp [h1, h2]

/-- C6 witness: a `UserId` of `AROAEXAMPLE:sess-1` splits into the user ID and
the session name. -/
theorem c6_witness :
    handleCallerIdentity (gostr "AKIAEXAMPLE")
        { account := gostr "123456789012",
          arn := gostr "arn:aws:sts::123456789012:assumed-role/admin/sess-1",
          userID := gostr "AROAEXAMPLE:sess-1" } =
      .ok { arn := gostr "arn:aws:sts::123456789012:assumed-role/admin/sess-1",
            canonicalARN := gostr "arn:aws:iam::123456789012:role/admin",
            accountID := gostr "123456789012", userID := gostr "AROAEXAMPLE",
            sessionName := gostr "sess-1", accessKeyID := gostr "AKIAEXAMPLE" } :=
  (c6_userIdSplit (gostr "AKIAEXAMPLE")
    { account := gostr "123456789012",
      arn := gostr "arn:aws:sts::123456789012:assumed-role/admin/sess-1",
      userID := gostr "AROAEXAMPLE:sess-1" }
    (gostr "arn:aws:iam::123456789012:role/admin") (by decide)).2.1
    (gostr "AROAEXAMPLE") (gostr "sess-1") (by decide)

/-- C3: for every successful presign, `GetWithSTS` returns the token
`"k8s-aws-v1."` followed by the URL-safe unpadded base64 of the presigned URL
(decoding recovers the URL, and every emitted byte is in the URL-safe alphabet,
so there is no padding), with expiration `now + 14` minutes — one minute before
the 15-minute presigned-URL expiry. -/
theorem c3_getWithSTS (now : Int) (url : Str) (h : ∀ b ∈ url, b < 256) :
    getWithSTS now (.ok url) =
      .ok { token := gostr "k8s-aws-v1." ++ base64RawUrlEncode url,
            expiration := now + 14 * 60 * 1000000000 } ∧
    base64RawUrlDecode (base64RawUrlEncode url) = some url ∧
    (base64RawUrlEncode url).all (fun c => (b64Val c).isSome) = true := by
  refine ⟨?_, base64_encode_decode url h, base64_encode_alphabet url h⟩
  unfold getWithSTS v1Pfx presignedURLExpirationNanos
  norm_num

/-- C3 witness: the token construction evaluated on a concrete presigned URL. -/
theorem c3_witness :
    getWithSTS 1600521240000000000 (.ok sampleURL) =
      .ok { token := gostr "k8s-aws-v1." ++ base64RawUrlEncode sampleURL,
            expiration := 1600521240000000000 + 14 * 60 * 1000000000 } ∧
    base64RawUrlDecode (base64RawUrlEncode sampleURL) = some sampleURL ∧
    (base64RawUrlEncode sampleURL).all (fun c => (b64Val c).isSome) = true :=
  c3_getWithSTS 1600521240000000000 sampleURL (by decide)

/-- C4 (code bug): in the assume-role branch, the derived session name never
reaches the assume-role provider.  With `forwardSessionName` set and a
two-part `UserId`, and likewise with a configured `options.SessionName`, the
provider's `RoleSessionName` stays unset (the collected `sessionSetters`
closures are never invoked), while `ExternalID` is carried. -/
theorem c4_sessionNameDropped :
    assumeRoleProviderFor true
        { region := [], clusterID := gostr "cluster",
          assumeRoleARN := gostr "arn:aws:iam::111:role/target",
          assumeRoleExternalID := gostr "ext-id", sessionName := [] }
        (.ok (gostr "AROAEXAMPLE:forwarded-session")) =
      .ok { roleARN := gostr "arn:aws:iam::111:role/target",
            externalID := some (gostr "ext-id"), roleSessionName := none } ∧
    assumeRoleProviderFor false
        { region := [], clusterID := gostr "cluster",
          assumeRoleARN := gostr "arn:aws:iam::111:role/target",
          assumeRoleExternalID := [], sessionName := gostr "explicit-session" }
        (.ok []) =
      .ok { roleARN := gostr "arn:aws:iam::111:role/target",
            externalID := none, roleSessionName := none } := by decide

/-- C7: once the cached credential is expired and the upstream provider
returns a credential that can expire, neither an exclusive-lock failure nor a
write failure makes `Retrieve` fail — the upstream credential is returned with
no error — and every attempted write targets the configured cache file path
with permission bits `0600`. -/
theorem c7_retrieveNonFatal (p : FileCacheProvider) (env : List (Str × Str))
    (now : Int) (cred : AwsCredentials) (lk : LockView) (writeOk : Bool)
    (reread : ReadOutcome)
    (hexp : cachedExpired p.cachedCredential now = true)
    (hce : cred.canExpire = true) :
    (fileCacheRetrieve p env now (.ok cred) lk writeOk reread).1 = .ok cred ∧
    ∀ w ∈ (fileCacheRetrieve p env now (.ok cred) lk writeOk reread).2,
      w.filename = cacheFilename env ∧ w.perm = 0o600 := by
  have hrefresh : (fileCacheRefresh p env (.ok cred) lk writeOk reread).1 = .ok cred ∧
      ∀ w ∈ (fileCacheRefresh p env (.ok cred) lk writeOk reread).2,
        w.filename = cacheFilename env ∧ w.perm = 0o600 := by
    by_cases hl : lk.lockOk <;> simp [fileCacheRefresh, hce, hl]
  obtain ⟨pcid, pprof, parn, cc⟩ := p
  cases cc with
  | none => exact hrefresh
  | some c =>
    simp only [cachedExpired] at hexp
    simp only [fileCacheRetrieve, hexp, if_true]
    exact hrefresh

/-- C7 witness: the non-fatal refresh evaluated with a failing lock and a
failing write. -/
theorem c7_witness :
    (fileCacheRetrieve
        { clusterID := gostr "CLUSTER", profile := gostr "PROFILE",
          roleARN := gostr "ARN", cachedCredential := none }
        [(gostr "HOME", gostr "homedir")] 0
        (.ok { accessKeyId := gostr "AKID", secretAccessKey := gostr "SECRET",
               sessionToken := gostr "TOKEN", source := gostr "stubProvider",
               canExpire := true, expires := 1600521240001000000 })
        { rlockOk := true, lockOk := false } false (.readErr (gostr "boom"))).1 =
      .ok { accessKeyId := gostr "AKID", secretAccessKey := gostr "SECRET",
            sessionToken := gostr "TOKEN", source := gostr "stubProvider",
            canExpire := true, expires := 1600521240001000000 } ∧
    ∀ w ∈ (fileCacheRetrieve
        { clusterID := gostr "CLUSTER", profile := gostr "PROFILE",
          roleARN := gostr "ARN", cachedCredential := none }
        [(gostr "HOME", gostr "homedir")] 0
        (.ok { accessKeyId := gostr "AKID", secretAccessKey := gostr "SECRET",
               sessionToken := gostr "TOKEN", source := gostr "stubProvider",
               canExpire := true, expires := 1600521240001000000 })
        { rlockOk := true, lockOk := false } false (.readErr (gostr "boom"))).2,
      w.filename = cacheFilename [(gostr "HOME", gostr "homedir")] ∧ w.perm = 0o600 :=
  c7_retrieveNonFatal
    { clusterID := gostr "CLUSTER", profile := gostr "PROFILE",
      roleARN := gostr "ARN", cachedCredential := none }
    [(gostr "HOME", gostr "homedir")] 0
    { accessKeyId := gostr "AKID", secretAccessKey := gostr "SECRET",
      sessionToken := gostr "TOKEN", source := gostr "stubProvider",
      canExpire := true, expires := 1600521240001000000 }
    { rlockOk := true, lockOk := false } false (.readErr (gostr "boom"))
    (by decide) (by decide)

/-- C8: cache open succeeds on a missing file and on a parsed file whose
`(cluster_id, profile, role_arn)` path is absent (an empty file parses to the
empty mapping, a special case of the latter), in both cases yielding a cached
credential that reports expired; and it fails exactly when the file exists and
its permission bits reach outside the owner bits, or the shared lock cannot be
acquired, or the read fails, or the contents are unparseable. -/
theorem c8_openCharacterization (clusterID profile roleARN : Str) (fs : FsView)
    (lk : LockView) (now : Int) :
    (fs.statMode = none →
      newFileCacheProvider clusterID profile roleARN fs lk =
        .ok { clusterID := clusterID, profile := profile, roleARN := roleARN,
              cachedCredential := none } ∧
      cachedExpired (none : Option AwsCredentials) now = true) ∧
    (∀ m cf, fs.statMode = some m → m &&& 0o077 = 0 → lk.rlockOk = true →
      fs.readOutcome = .parsed cf → cacheGet cf clusterID profile roleARN = none →
      newFileCacheProvider clusterID profile roleARN fs lk =
        .ok { clusterID := clusterID, profile := profile, roleARN := roleARN,
              cachedCredential := none } ∧
      cachedExpired (none : Option AwsCredentials) now = true) ∧
    ((∃ e, newFileCacheProvider clusterID profile roleARN fs lk = .error e) ↔
      ∃ m, fs.statMode = some m ∧ (m &&& 0o077 ≠ 0 ∨ lk.rlockOk = false ∨
        ∀ cf, fs.readOutcome ≠ .parsed cf)) := by
  obtain ⟨sm, ro⟩ := fs
  refine ⟨?_, ?_, ?_⟩
  · intro hsm
    cases hsm
    exact ⟨rfl, rfl⟩
  · intro m cf hsm hperm hrl hro hget
    cases hsm
    cases hro
    refine ⟨?_, rfl⟩
    unfold newFileCacheProvider
    simp only [hperm, hrl]
    simp [hget]
  · unfold newFileCacheProvider
    cases sm with
    | none => simp
    | some m =>
      by_cases hperm : m &&& 0o077 = 0
      · by_cases hrl : lk.rlockOk
        · cases ro with
          | readErr msg => simp [hperm, hrl]
          | unparseable msg => simp [hperm, hrl]
          | parsed cf => simp [hperm, hrl]
        · simp [hperm, hrl]
      · simp [hperm]

/-- C8 witness: a missing cache file opens successfully with an expired cached
credential. -/
theorem c8_witness :
    newFileCacheProvider (gostr "CLUSTER") (gostr "PROFILE") (gostr "ARN")
        { statMode := none, readOutcome := .parsed [] }
        { rlockOk := true, lockOk := true } =
      .ok { clusterID := gostr "CLUSTER", profile := gostr "PROFILE",
            roleARN := gostr "ARN", cachedCredential := none } ∧
    cachedExpired (none : Option AwsCredentials) 0 = true :=
  (c8_openCharacterization (gostr "CLUSTER") (gostr "PROFILE") (gostr "ARN")
    { statMode := none, readOutcome := .parsed [] }
    { rlockOk := true, lockOk := true } 0).1 rfl

/-- C10: the structural checks never require `x-amz-signature` or
`x-amz-credential` to be present.  A token passing the length, prefix, base64,
scheme, host, path, query, whitelist, action, signed-headers, `x-amz-expires`
and `x-amz-date` checks while carrying neither parameter passes the whole
pre-call validation with `accessKeyID` equal to the empty string (the text
before the first `/` of the empty `x-amz-credential` value), and a decoded 200
response then yields an `Identity` whose `AccessKeyID` is empty. -/
theorem c10_credentialOptional (v : TokenVerifier) (token : Str) (now : Int)
    (bs : Str) (u : GoURL) (qp : List (Str × List Str)) (q : List (Str × Str))
    (n : Int) (dt : DateTime)
    (hlen : token.length ≤ maxTokenLenBytes)
    (hpre : List.isPrefixOf v1Pfx token = true)
    (hdec : base64RawUrlDecode (token.drop v1Pfx.length) = some bs)
    (hurl : parseURL bs = some u)
    (hscheme : u.scheme = gostr "https")
    (hhost : u.host ∈ v.validSTShostnames)
    (hpath : u.path = gostr "/")
    (hq : parseQuery u.rawQuery = some qp)
    (hwl : checkParamsGo qp [] = .ok q)
    (haction : getV q (gostr "action") = gostr "GetCallerIdentity")
    (hsigned : hasSignedClusterIDHeader q = true)
    (hexpires : atoi (getV q (gostr "x-amz-expires")) = some n)
    (hn0 : 0 ≤ n) (hn9 : n ≤ 900)
    (hdate : getV q (gostr "x-amz-date") ≠ [])
    (hdt : parseAmzDate (getV q (gostr "x-amz-date")) = some dt)
    (hnow : now ≤ toEpochNanos dt + presignedURLExpirationNanos)
    (hnosig : lookupStr q (gostr "x-amz-signature") = none)
    (hnocred : lookupStr q (gostr "x-amz-credential") = none) :
    verifyPre v token now =
      .ok { parsedURL := u, queryParamsLower := q, accessKeyID := [],
            dateParam := dt } ∧
    ∀ (body : Str) (um : Str → Except Str GetCallerIdentityResult)
      (ci : GetCallerIdentityResult) (ca : Str) (uid : Str),
      um body = .ok ci → canonicalize ci.arn = .ok ca →
      splitOnChar 58 ci.userID = [uid] →
      verify v token now (fun _ _ => .response 200 body) um =
        .ok { arn := ci.arn, canonicalARN := ca, accountID := ci.account,
              userID := uid, sessionName := [], accessKeyID := [] } := by
  have h1 : ¬ token.length > maxTokenLenBytes := by omega
  have hacc : getV q (gostr "x-amz-credential") = [] := by
    unfold getV
    rw [hnocred]
    rfl
  have hstatic : verifyStatic v token =
      .ok { parsedURL := u, queryParamsLower := q, accessKeyID := [],
            dateParam := dt } := by
    simp only [verifyStatic, h1, hpre, hdec, hurl, hscheme, hhost, hpath, hq, hwl,
      haction, hsigned, hexpires, hdt, hacc, not_false_eq_true, not_true_eq_false,
      if_true, if_false, ite_true, ite_false, ne_eq, not_false_iff]
    rw [if_neg (by omega), if_neg hdate]
    simp [verifyHost, hhost, splitOnChar]
  have hpreok : verifyPre v token now =
      .ok { parsedURL := u, queryParamsLower := q, accessKeyID := [],
            dateParam := dt } := by
    unfold verifyPre
    rw [hstatic]
    exact if_neg (by simp; omega)
  refine ⟨hpreok, ?_⟩
  intro body um ci ca uid hum hca huid
  unfold verify
  rw [hpreok]
  simp only [hum, if_true, ite_true, ite_false, if_false]
  have : ¬ (200 ≠ 200) := by omega
  rw [if_neg this]
  unfold handleCallerIdentity
  rw [hca]
  simp [huid]

/-- C10 witness: the sample token carries neither `x-amz-signature` nor
`x-amz-credential` and passes the whole pre-call validation; with a decoded
200 response the resulting identity has an empty `AccessKeyID`. -/
theorem c10_witness :
    verifyPre sampleVerifier sampleToken 1600521240000000000 =
      .ok { parsedURL := sampleParsedURL, queryParamsLower := sampleParams,
            accessKeyID := [], dateParam := sampleDate } ∧
    ∀ (body : Str) (um : Str → Except Str GetCallerIdentityResult)
      (ci : GetCallerIdentityResult) (ca : Str) (uid : Str),
      um body = .ok ci → canonicalize ci.arn = .ok ca →
      splitOnChar 58 ci.userID = [uid] →
      verify sampleVerifier sampleToken 1600521240000000000
          (fun _ _ => .response 200 body) um =
        .ok { arn := ci.arn, canonicalARN := ca, accountID := ci.account,
              userID := uid, sessionName := [], accessKeyID := [] } :=
  c10_credentialOptional sampleVerifier sampleToken 1600521240000000000
    sampleURL sampleParsedURL
    [(gostr "Action", [gostr "GetCallerIdentity"]),
     (gostr "X-Amz-Expires", [gostr "60"]),
     (gostr "X-Amz-SignedHeaders", [gostr "x-k8s-aws-id"]),
     (gostr "X-Amz-Date", [gostr "20200919T131400Z"])]
    sampleParams 60 sampleDate
    (by decide) (by decide) (by decide) (by decide) (by decide) (by decide)
    (by decide) (by decide) (by decide) (by decide) (by decide) (by decide)
    (by decide) (by decide) (by decide) (by decide) (by decide) (by decide)
    (by decide)

end AwsIam
